import Mathlib

/-!
Verification development for a FusionSolar REST client
(`src/fusionsolar/client.py`).

The client is embedded shallowly:

* JSON parameter values become `PVal`; a decoded response body becomes
  `Body` (success flag, optional integer failure code, opaque raw text).
* The `requests` transport is an oracle `World` holding three streams:
  `clock` (successive readings of `pd.Timestamp.utcnow().timestamp()`),
  `jitter` (successive draws of `random.randint(3, 10)`), and `resp`
  (the HTTP response delivered to the i-th POST issued).
* Mutable client state (`Client.__init__` fields plus the `requests`
  session headers and cookie jar) becomes `ClientState`; the running
  system `Sys` adds cursors into the three streams and a `trace` of
  observable events (login invocations, POSTs with the headers they
  carry, sleeps with their delay).
* Python exceptions become the `HTTPErr` sum returned through `Except`.

`validate_response`, `login`, the `authenticated` and `throttle_retry`
decorators and `_request` are translated function by function; `request`
below is the fully decorated `_request`.  Timestamps are modelled as
natural numbers of seconds.
-/

namespace FusionSolar

/-- A primitive JSON parameter value (string or integer). -/
inductive PVal where
  | str (s : String)
  | int (n : Int)
deriving DecidableEq

/-- Decoded JSON response body: `success` flag, optional `failCode`,
and the rest of the payload kept opaque as `raw`. -/
structure Body where
  success : Bool
  failCode : Option Int
  raw : String
deriving DecidableEq

/-- An HTTP response: status code, decoded JSON body, response cookies. -/
structure HttpResponse where
  status : Nat
  body : Body
  cookies : List (String × String)
deriving DecidableEq

/-- The exception taxonomy of `client.py`: `transport` models
`requests.Response.raise_for_status`, `generic` is the bare `HTTPError`,
and `e407`/`e305`/`e306`/`e307` are `HTTPError407`/`305`/`306`/`307`. -/
inductive HTTPErr where
  | transport (status : Nat)
  | generic (body : Body)
  | e407 (body : Body)
  | e305 (body : Body)
  | e306 (body : Body)
  | e307 (body : Body)
deriving DecidableEq

/-- `Client._validate_response`: raise for a non-success HTTP status,
return `ok` on `success: true`, otherwise classify by `failCode`.
Mirrors the source exactly, including the fact that fail codes 305 and
307 raise `HTTPError306` (the source's `elif` branches for 305 and 307
both end in `raise HTTPError306(body)`). -/
def validate_response (r : HttpResponse) : Except HTTPErr Unit :=
  if 400 ≤ r.status then .error (.transport r.status)
  else if r.body.success then .ok ()
  else if r.body.failCode = some 407 then .error (.e407 r.body)
  else if r.body.failCode = some 305 then .error (.e306 r.body)
  else if r.body.failCode = some 306 then .error (.e306 r.body)
  else if r.body.failCode = some 307 then .error (.e306 r.body)
  else .error (.generic r.body)

/-- Mutable client state: constructor fields of `Client.__init__` plus
the `requests` session's headers and cookie jar.  Header values are
optional because `r.cookies.get('XSRF-TOKEN')` may be `None`. -/
structure ClientState where
  user_name : String
  system_code : String
  max_retry : Nat
  base_url : String
  headers : List (String × Option String)
  cookies : List (String × String)
  token_expiration_time : Nat
deriving DecidableEq

/-- Observable events of one dispatch: a `login()` invocation, an HTTP
POST (with the session headers it carries and its JSON body), or a
`time.sleep(delay)`. -/
inductive Event where
  | login
  | post (url : String) (headers : List (String × Option String))
      (body : List (String × PVal))
  | sleep (delay : Nat)
deriving DecidableEq

/-- The environment: the i-th clock reading, the i-th jitter draw of
`random.randint(3, 10)`, and the response to the i-th POST issued. -/
structure World where
  clock : Nat → Nat
  jitter : Nat → Nat
  resp : Nat → HttpResponse

/-- Running system: client state, cursors into the world's three
streams, and the event trace so far. -/
structure Sys where
  st : ClientState
  ci : Nat
  ji : Nat
  ri : Nat
  trace : List Event

/-- One reading of `pd.Timestamp.utcnow().timestamp()`. -/
def utcnow (w : World) (s : Sys) : Nat × Sys :=
  (w.clock s.ci, { s with ci := s.ci + 1 })

/-- One draw of `random.randint(3, 10)`. -/
def randJitter (w : World) (s : Sys) : Nat × Sys :=
  (w.jitter s.ji, { s with ji := s.ji + 1 })

/-- `self.session.post(url=url, json=body)`: records the POST (with the
current session headers) and consumes the next response. -/
def doPost (w : World) (url : String) (body : List (String × PVal))
    (s : Sys) : HttpResponse × Sys :=
  (w.resp s.ri,
   { s with ri := s.ri + 1,
            trace := s.trace ++ [Event.post url s.st.headers body] })

/-- `time.sleep(d)`. -/
def doSleep (d : Nat) (s : Sys) : Sys :=
  { s with trace := s.trace ++ [Event.sleep d] }

/-- Python `dict.update` on the session headers: replace the value under
an existing key, or append the binding. -/
def updateHeader (hs : List (String × Option String)) (k : String)
    (v : Option String) : List (String × Option String) :=
  if hs.any (fun p => p.1 == k) then
    hs.map (fun p => if p.1 == k then (k, v) else p)
  else hs ++ [(k, v)]

/-- `r.cookies.get(name=k)`. -/
def lookupCookie (cs : List (String × String)) (k : String) :
    Option String :=
  (cs.find? (fun p => p.1 == k)).map Prod.snd

/-- Read a session header value (flattening a missing key to `none`). -/
def getHeader (hs : List (String × Option String)) (k : String) :
    Option String :=
  match hs.find? (fun p => p.1 == k) with
  | some p => p.2
  | none => none

/-- The JSON body of the login POST. -/
def loginBody (st : ClientState) : List (String × PVal) :=
  [("userName", PVal.str st.user_name),
   ("systemCode", PVal.str st.system_code)]

/-- `Client.login`: clear the session cookie jar, POST
`{userName, systemCode}` to `{base_url}/login`, validate the envelope,
store the response's `XSRF-TOKEN` cookie as the `XSRF-TOKEN` session
header, and set the expiry timestamp to now + 1200 seconds.  On a
validation failure the error propagates and neither the headers nor the
expiry timestamp are touched. -/
def login (w : World) (s : Sys) : Except HTTPErr Unit × Sys :=
  let s0 := { s with trace := s.trace ++ [Event.login] }
  let url := s0.st.base_url ++ "/login"
  let body := loginBody s0.st
  let s1 := { s0 with st := { s0.st with cookies := [] } }
  let (r, s2) := doPost w url body s1
  match validate_response r with
  | .error e => (.error e, s2)
  | .ok _ =>
    let s3 := { s2 with st := { s2.st with
      headers := updateHeader s2.st.headers "XSRF-TOKEN"
        (lookupCookie r.cookies "XSRF-TOKEN") } }
    let (now, s4) := utcnow w s3
    (.ok (), { s4 with st := { s4.st with
      token_expiration_time := now + 1200 } })

/-- The undecorated body of `Client._request`: POST the parameter map to
`{base_url}/{function}`, validate, and return the decoded body. -/
def request_inner (w : World) (f : String)
    (data : List (String × PVal)) (s : Sys) : Except HTTPErr Body × Sys :=
  let url := s.st.base_url ++ "/" ++ f
  let (r, s1) := doPost w url data s
  match validate_response r with
  | .error e => (.error e, s1)
  | .ok _ => (.ok r.body, s1)

/-- The result `_request` would produce from a given response: the
validation error if validation fails, otherwise the decoded body. -/
def innerResult (r : HttpResponse) : Except HTTPErr Body :=
  match validate_response r with
  | .error e => .error e
  | .ok _ => .ok r.body

/-- The `authenticated` decorator applied to `_request`: read the clock;
if the stored expiry timestamp is at or before now, call `login()` first
(propagating its failure), then run the wrapped call. -/
def authRequest (w : World) (f : String)
    (data : List (String × PVal)) (s : Sys) : Except HTTPErr Body × Sys :=
  let (now, s1) := utcnow w s
  if s1.st.token_expiration_time ≤ now then
    match login w s1 with
    | (.error e, s2) => (.error e, s2)
    | (.ok _, s2) => request_inner w f data s2
  else request_inner w f data s1

/-- The retry loop of the `throttle_retry` decorator's `HTTPError407`
handler: `for i in range(1, max_retry + 1)`, sleep
`i * 20 + randint(3, 10)` seconds, retry the wrapped call; an
`HTTPError407` from the retry is swallowed and the loop continues, any
other outcome is returned; when the loop exhausts, the originally caught
error `origErr` is re-raised. -/
def retryLoop (w : World) (f : String) (data : List (String × PVal))
    (origErr : HTTPErr) : Nat → Nat → Sys → Except HTTPErr Body × Sys
  | _, 0, s => (.error origErr, s)
  | i, fuel + 1, s =>
    let (j, s1) := randJitter w s
    let s2 := doSleep (i * 20 + j) s1
    match authRequest w f data s2 with
    | (.ok v, s3) => (.ok v, s3)
    | (.error e, s3) =>
      match e with
      | .e407 _ => retryLoop w f data origErr (i + 1) fuel s3
      | e => (.error e, s3)

/-- The `HTTPError305/306/307` handler of `throttle_retry`: call
`self.login()` (propagating its failure) and retry the wrapped call
exactly once, returning that retry's outcome unmodified. -/
def sessionRetry (w : World) (f : String)
    (data : List (String × PVal)) (s : Sys) : Except HTTPErr Body × Sys :=
  match login w s with
  | (.error e, s1) => (.error e, s1)
  | (.ok _, s1) => authRequest w f data s1

/-- `Client._request` with both decorators applied
(`@throttle_retry` outside, `@authenticated` inside): run the wrapped
call; on `HTTPError407` enter the retry loop with the caught error; on
`HTTPError305/306/307` re-login and retry once; any other error
propagates. -/
def request (w : World) (f : String) (data : List (String × PVal))
    (s : Sys) : Except HTTPErr Body × Sys :=
  match authRequest w f data s with
  | (.ok v, s1) => (.ok v, s1)
  | (.error e, s1) =>
    match e with
    | .e407 b => retryLoop w f data (.e407 b) 1 s1.st.max_retry s1
    | .e305 _ => sessionRetry w f data s1
    | .e306 _ => sessionRetry w f data s1
    | .e307 _ => sessionRetry w f data s1
    | e => (.error e, s1)

/-- `Client.__init__`: store the constructor arguments, set the default
session headers, start with an empty cookie jar and
`token_expiration_time = 0`. -/
def clientInit (user_name system_code : String) (max_retry : Nat)
    (base_url : String) : ClientState :=
  { user_name := user_name
    system_code := system_code
    max_retry := max_retry
    base_url := base_url
    headers := [("Connection", some "keep-alive"),
                ("Content-Type", some "application/json")]
    cookies := []
    token_expiration_time := 0 }

/-- The default `max_retry` of `Client.__init__`. -/
def defaultMaxRetry : Nat := 6

/-- The default `base_url` of `Client.__init__`. -/
def defaultBaseUrl : String := "https://eu5.fusionsolar.huawei.com/thirdData"

/-- A freshly constructed client as a running system: empty trace, all
stream cursors at zero. -/
def initialSys (user_name system_code : String) (max_retry : Nat)
    (base_url : String) : Sys :=
  { st := clientInit user_name system_code max_retry base_url
    ci := 0
    ji := 0
    ri := 0
    trace := [] }

/-- `Client.get_station_kpi_day`: the date argument is serialized as
`int(date.timestamp()) * 1000`; `dateSeconds` models the whole-second
epoch value `int(date.timestamp())`. -/
def get_station_kpi_day (w : World) (s : Sys) (station_code : String)
    (dateSeconds : Int) : Except HTTPErr Body × Sys :=
  request w "getKpiStationDay"
    [("stationCodes", PVal.str station_code),
     ("collectTime", PVal.int (dateSeconds * 1000))] s

/-- The delays slept by `retryLoop` starting at retry index `i` with
jitter cursor `ji`: `[i*20 + jitter ji, (i+1)*20 + jitter (ji+1), ...]`. -/
def delaysFrom (w : World) : Nat → Nat → Nat → List Nat
  | _, _, 0 => []
  | i, ji, fuel + 1 => (i * 20 + w.jitter ji) :: delaysFrom w (i + 1) (ji + 1) fuel

/-- The sleep delays recorded in a trace, in order. -/
def sleepsOf : List Event → List Nat
  | [] => []
  | Event.sleep d :: t => d :: sleepsOf t
  | _ :: t => sleepsOf t

/-- Number of `login()` invocations recorded in a trace. -/
def countLogins : List Event → Nat
  | [] => 0
  | Event.login :: t => countLogins t + 1
  | _ :: t => countLogins t

/-- Number of POSTs recorded in a trace. -/
def countPosts : List Event → Nat
  | [] => 0
  | Event.post _ _ _ :: t => countPosts t + 1
  | _ :: t => countPosts t

/-- A response is a throttling failure: HTTP success status, failure
envelope with `failCode = 407`. -/
def throttled (r : HttpResponse) : Prop :=
  r.status < 400 ∧ r.body.success = false ∧ r.body.failCode = some 407

/-- The trace segment produced by a full pass of the retry loop that
never succeeds: each iteration sleeps and re-POSTs. -/
def retryTrace (w : World) (f : String) (data : List (String × PVal))
    (st : ClientState) : Nat → Nat → Nat → List Event
  | _, _, 0 => []
  | i, ji, fuel + 1 =>
    Event.sleep (i * 20 + w.jitter ji) ::
    Event.post (st.base_url ++ "/" ++ f) st.headers data ::
    retryTrace w f data st (i + 1) (ji + 1) fuel

/- Concrete fixtures used by witnesses and counterexamples. -/

/-- A throttling failure body, `{"success": false, "failCode": 407}`. -/
def B407 : Body := { success := false, failCode := some 407, raw := "throttled" }

/-- A throttling failure response. -/
def R407 : HttpResponse := { status := 200, body := B407, cookies := [] }

/-- A successful body. -/
def BOK : Body := { success := true, failCode := none, raw := "data" }

/-- A successful response. -/
def ROK : HttpResponse := { status := 200, body := BOK, cookies := [] }

/-- A session-invalid failure body with `failCode = 305`. -/
def B305 : Body := { success := false, failCode := some 305, raw := "session" }

/-- A session-invalid failure response with `failCode = 305`. -/
def R305 : HttpResponse := { status := 200, body := B305, cookies := [] }

/-- A successful login response carrying an `XSRF-TOKEN` cookie. -/
def RLOGIN : HttpResponse :=
  { status := 200, body := { success := true, failCode := none, raw := "login" },
    cookies := [("XSRF-TOKEN", "abc123")] }

/-! ### Basic lemmas about the embedding -/

theorem sleepsOf_append (a b : List Event) :
    sleepsOf (a ++ b) = sleepsOf a ++ sleepsOf b := by
  induction a with
  | nil => rfl
  | cons e t ih => cases e <;> simp [sleepsOf, ih]

theorem countLogins_append (a b : List Event) :
    countLogins (a ++ b) = countLogins a + countLogins b := by
  induction a with
  | nil => simp [countLogins]
  | cons e t ih =>
    cases e with
    | login => simp [countLogins, ih]; omega
    | post u hh b => simp [countLogins, ih]
    | sleep d => simp [countLogins, ih]

theorem countPosts_append (a b : List Event) :
    countPosts (a ++ b) = countPosts a + countPosts b := by
  induction a with
  | nil => simp [countPosts]
  | cons e t ih =>
    cases e with
    | login => simp [countPosts, ih]
    | post u hh b => simp [countPosts, ih]; omega
    | sleep d => simp [countPosts, ih]

theorem validate_ok (r : HttpResponse) (h1 : r.status < 400)
    (h2 : r.body.success = true) : validate_response r = .ok () := by
  simp [validate_response, Nat.not_le.mpr h1, h2]

theorem validate_throttled (r : HttpResponse) (h : throttled r) :
    validate_response r = .error (.e407 r.body) := by
  obtain ⟨h1, h2, h3⟩ := h
  simp [validate_response, Nat.not_le.mpr h1, h2, h3]

theorem validate_sessionInvalid (r : HttpResponse) (c : Int)
    (hcode : c = 305 ∨ c = 306 ∨ c = 307)
    (h1 : r.status < 400) (h2 : r.body.success = false)
    (h3 : r.body.failCode = some c) :
    validate_response r = .error (.e306 r.body) := by
  rcases hcode with hc | hc | hc <;> subst hc <;>
    simp [validate_response, Nat.not_le.mpr h1, h2, h3]

theorem validate_generic (r : HttpResponse)
    (h1 : r.status < 400) (h2 : r.body.success = false)
    (h3 : ∀ c : Int, r.body.failCode = some c →
      c ≠ 407 ∧ c ≠ 305 ∧ c ≠ 306 ∧ c ≠ 307) :
    validate_response r = .error (.generic r.body) := by
  have h407 : r.body.failCode ≠ some 407 := fun h => ((h3 407 h).1) rfl
  have h305 : r.body.failCode ≠ some 305 := fun h => ((h3 305 h).2.1) rfl
  have h306 : r.body.failCode ≠ some 306 := fun h => ((h3 306 h).2.2.1) rfl
  have h307 : r.body.failCode ≠ some 307 := fun h => ((h3 307 h).2.2.2) rfl
  simp [validate_response, Nat.not_le.mpr h1, h2, h407, h305, h306, h307]

theorem request_inner_eq (w : World) (f : String)
    (data : List (String × PVal)) (s : Sys) :
    request_inner w f data s =
      (innerResult (w.resp s.ri),
       { s with ri := s.ri + 1,
                trace := s.trace ++
                  [Event.post (s.st.base_url ++ "/" ++ f) s.st.headers data] }) := by
  cases h : validate_response (w.resp s.ri) <;>
    simp [request_inner, innerResult, doPost, h]

theorem login_ok (w : World) (s : Sys)
    (h : validate_response (w.resp s.ri) = .ok ()) :
    login w s =
      (.ok (),
       { st := { s.st with
            cookies := [],
            headers := updateHeader s.st.headers "XSRF-TOKEN"
              (lookupCookie (w.resp s.ri).cookies "XSRF-TOKEN"),
            token_expiration_time := w.clock s.ci + 1200 },
         ci := s.ci + 1, ji := s.ji, ri := s.ri + 1,
         trace := s.trace ++
           [Event.login,
            Event.post (s.st.base_url ++ "/login") s.st.headers
              (loginBody s.st)] }) := by
  simp [login, doPost, utcnow, h]

theorem login_err (w : World) (s : Sys) (e : HTTPErr)
    (h : validate_response (w.resp s.ri) = .error e) :
    login w s =
      (.error e,
       { st := { s.st with cookies := [] },
         ci := s.ci, ji := s.ji, ri := s.ri + 1,
         trace := s.trace ++
           [Event.login,
            Event.post (s.st.base_url ++ "/login") s.st.headers
              (loginBody s.st)] }) := by
  simp [login, doPost, utcnow, h]

theorem authRequest_fresh (w : World) (f : String)
    (data : List (String × PVal)) (s : Sys)
    (h : w.clock s.ci < s.st.token_expiration_time) :
    authRequest w f data s =
      (innerResult (w.resp s.ri),
       { s with ci := s.ci + 1, ri := s.ri + 1,
                trace := s.trace ++
                  [Event.post (s.st.base_url ++ "/" ++ f) s.st.headers data] }) := by
  simp [authRequest, utcnow, Nat.not_le.mpr h, request_inner_eq]

theorem innerResult_ok (r : HttpResponse) (h1 : r.status < 400)
    (h2 : r.body.success = true) : innerResult r = .ok r.body := by
  simp [innerResult, validate_ok r h1 h2]

theorem innerResult_throttled (r : HttpResponse) (h : throttled r) :
    innerResult r = .error (.e407 r.body) := by
  simp [innerResult, validate_throttled r h]

theorem authRequest_fresh_mk (w : World) (f : String)
    (data : List (String × PVal)) (st : ClientState)
    (ci ji ri : Nat) (tr : List Event)
    (h : w.clock ci < st.token_expiration_time) :
    authRequest w f data ⟨st, ci, ji, ri, tr⟩ =
      (innerResult (w.resp ri),
       ⟨st, ci + 1, ji, ri + 1,
        tr ++ [Event.post (st.base_url ++ "/" ++ f) st.headers data]⟩) := by
  exact authRequest_fresh w f data ⟨st, ci, ji, ri, tr⟩ h

theorem retryLoop_throttled (w : World) (f : String)
    (data : List (String × PVal)) (e : HTTPErr)
    (hr : ∀ k, throttled (w.resp k)) :
    ∀ fuel i (st : ClientState) (ci ji ri : Nat) (tr : List Event),
    (∀ k, w.clock k < st.token_expiration_time) →
    retryLoop w f data e i fuel ⟨st, ci, ji, ri, tr⟩ =
      (.error e,
       ⟨st, ci + fuel, ji + fuel, ri + fuel,
        tr ++ retryTrace w f data st i ji fuel⟩) := by
  intro fuel
  induction fuel with
  | zero => intro i st ci ji ri tr hc; simp [retryLoop, retryTrace]
  | succ fuel ih =>
    intro i st ci ji ri tr hc
    simp only [retryLoop, randJitter, doSleep]
    rw [authRequest_fresh_mk w f data st ci (ji + 1) ri
      (tr ++ [Event.sleep (i * 20 + w.jitter ji)]) (hc ci)]
    rw [innerResult_throttled _ (hr ri)]
    dsimp only
    rw [ih (i + 1) st (ci + 1) (ji + 1) (ri + 1) _ hc]
    simp [retryTrace, List.append_assoc]
    omega

theorem sleepsOf_retryTrace (w : World) (f : String)
    (data : List (String × PVal)) (st : ClientState) :
    ∀ fuel i ji,
    sleepsOf (retryTrace w f data st i ji fuel) = delaysFrom w i ji fuel := by
  intro fuel
  induction fuel with
  | zero => intro i ji; rfl
  | succ fuel ih => intro i ji; simp [retryTrace, delaysFrom, sleepsOf, ih]

theorem countPosts_retryTrace (w : World) (f : String)
    (data : List (String × PVal)) (st : ClientState) :
    ∀ fuel i ji, countPosts (retryTrace w f data st i ji fuel) = fuel := by
  intro fuel
  induction fuel with
  | zero => intro i ji; rfl
  | succ fuel ih => intro i ji; simp [retryTrace, countPosts, ih]

theorem countLogins_retryTrace (w : World) (f : String)
    (data : List (String × PVal)) (st : ClientState) :
    ∀ fuel i ji, countLogins (retryTrace w f data st i ji fuel) = 0 := by
  intro fuel
  induction fuel with
  | zero => intro i ji; rfl
  | succ fuel ih => intro i ji; simp [retryTrace, countLogins, ih]

theorem delaysFrom_eq_map (w : World) :
    ∀ fuel i ji, delaysFrom w i ji fuel =
      (List.range fuel).map (fun k => (i + k) * 20 + w.jitter (ji + k)) := by
  intro fuel
  induction fuel with
  | zero => intro i ji; rfl
  | succ fuel ih =>
    intro i ji
    rw [delaysFrom, ih, List.range_succ_eq_map]
    simp only [List.map_cons, List.map_map, Nat.add_zero]
    congr 1
    apply List.map_congr_left
    intro k _
    simp only [Function.comp_apply]
    congr 1
    · congr 1
      omega
    · congr 1
      omega

theorem delaysFrom_chain (w : World)
    (hj : ∀ k, 3 ≤ w.jitter k ∧ w.jitter k ≤ 10) :
    ∀ fuel i ji, List.Chain' (fun a b => a ≤ b) (delaysFrom w i ji fuel) := by
  intro fuel
  induction fuel with
  | zero => intro i ji; simp [delaysFrom]
  | succ fuel ih =>
    intro i ji
    cases fuel with
    | zero => simp [delaysFrom]
    | succ fuel' =>
      rw [delaysFrom, delaysFrom]
      refine List.chain'_cons.mpr ⟨?_, ?_⟩
      · have h1 := (hj ji).2
        have h2 := (hj (ji + 1)).1
        omega
      · rw [← delaysFrom]
        exact ih (i + 1) (ji + 1)

theorem login_trace (w : World) (s : Sys) :
    (login w s).2.trace = s.trace ++
      [Event.login,
       Event.post (s.st.base_url ++ "/login") s.st.headers (loginBody s.st)] := by
  cases h : validate_response (w.resp s.ri) with
  | error e => rw [login_err w s e h]
  | ok u => cases u; rw [login_ok w s h]

theorem authRequest_trace_mono (w : World) (f : String)
    (data : List (String × PVal)) (s : Sys) :
    ∃ t, (authRequest w f data s).2.trace = s.trace ++ t := by
  simp only [authRequest, utcnow]
  by_cases h : s.st.token_expiration_time ≤ w.clock s.ci
  · rw [if_pos h]
    rcases hL : login w { s with ci := s.ci + 1 } with ⟨r1, s2⟩
    have hT := login_trace w { s with ci := s.ci + 1 }
    rw [hL] at hT
    dsimp only at hT
    cases r1 with
    | error e =>
      dsimp only
      exact ⟨_, hT⟩
    | ok u =>
      dsimp only
      rw [request_inner_eq]
      dsimp only
      refine ⟨[Event.login,
        Event.post (s.st.base_url ++ "/login") s.st.headers (loginBody s.st),
        Event.post (s2.st.base_url ++ "/" ++ f) s2.st.headers data], ?_⟩
      rw [hT]
      simp
  · rw [if_neg h]
    rw [request_inner_eq]
    exact ⟨_, rfl⟩

theorem authRequest_trace_expired (w : World) (f : String)
    (data : List (String × PVal)) (s : Sys)
    (h : s.st.token_expiration_time ≤ w.clock s.ci) :
    ∃ t, (authRequest w f data s).2.trace = s.trace ++ Event.login :: t := by
  simp only [authRequest, utcnow]
  rw [if_pos h]
  rcases hL : login w { s with ci := s.ci + 1 } with ⟨r1, s2⟩
  have hT := login_trace w { s with ci := s.ci + 1 }
  rw [hL] at hT
  dsimp only at hT
  cases r1 with
  | error e =>
    dsimp only
    exact ⟨_, hT⟩
  | ok u =>
    dsimp only
    rw [request_inner_eq]
    dsimp only
    refine ⟨[Event.post (s.st.base_url ++ "/login") s.st.headers (loginBody s.st),
      Event.post (s2.st.base_url ++ "/" ++ f) s2.st.headers data], ?_⟩
    rw [hT]
    simp

theorem retryLoop_trace_mono (w : World) (f : String)
    (data : List (String × PVal)) (e : HTTPErr) :
    ∀ fuel i (s : Sys),
    ∃ t, (retryLoop w f data e i fuel s).2.trace = s.trace ++ t := by
  intro fuel
  induction fuel with
  | zero => intro i s; exact ⟨[], by simp [retryLoop]⟩
  | succ fuel ih =>
    intro i s
    simp only [retryLoop, randJitter, doSleep]
    rcases hA : authRequest w f data
      { s with ji := s.ji + 1,
               trace := s.trace ++ [Event.sleep (i * 20 + w.jitter s.ji)] }
      with ⟨r1, s3⟩
    obtain ⟨t1, ht1⟩ := authRequest_trace_mono w f data
      { s with ji := s.ji + 1,
               trace := s.trace ++ [Event.sleep (i * 20 + w.jitter s.ji)] }
    rw [hA] at ht1
    dsimp only at ht1
    cases r1 with
    | ok v =>
      dsimp only
      exact ⟨[Event.sleep (i * 20 + w.jitter s.ji)] ++ t1,
        by rw [ht1, List.append_assoc]⟩
    | error e1 =>
      cases e1 with
      | e407 b =>
        dsimp only
        obtain ⟨t2, ht2⟩ := ih (i + 1) s3
        exact ⟨[Event.sleep (i * 20 + w.jitter s.ji)] ++ (t1 ++ t2),
          by rw [ht2, ht1]; simp [List.append_assoc]⟩
      | transport a =>
        dsimp only
        exact ⟨[Event.sleep (i * 20 + w.jitter s.ji)] ++ t1,
          by rw [ht1, List.append_assoc]⟩
      | generic b =>
        dsimp only
        exact ⟨[Event.sleep (i * 20 + w.jitter s.ji)] ++ t1,
          by rw [ht1, List.append_assoc]⟩
      | e305 b =>
        dsimp only
        exact ⟨[Event.sleep (i * 20 + w.jitter s.ji)] ++ t1,
          by rw [ht1, List.append_assoc]⟩
      | e306 b =>
        dsimp only
        exact ⟨[Event.sleep (i * 20 + w.jitter s.ji)] ++ t1,
          by rw [ht1, List.append_assoc]⟩
      | e307 b =>
        dsimp only
        exact ⟨[Event.sleep (i * 20 + w.jitter s.ji)] ++ t1,
          by rw [ht1, List.append_assoc]⟩

theorem sessionRetry_trace_mono (w : World) (f : String)
    (data : List (String × PVal)) (s : Sys) :
    ∃ t, (sessionRetry w f data s).2.trace = s.trace ++ t := by
  simp only [sessionRetry]
  rcases hL : login w s with ⟨r1, s2⟩
  have hT := login_trace w s
  rw [hL] at hT
  dsimp only at hT
  cases r1 with
  | error e =>
    dsimp only
    exact ⟨_, hT⟩
  | ok u =>
    dsimp only
    obtain ⟨t2, ht2⟩ := authRequest_trace_mono w f data s2
    refine ⟨[Event.login,
      Event.post (s.st.base_url ++ "/login") s.st.headers (loginBody s.st)] ++ t2, ?_⟩
    rw [ht2, hT]
    simp

theorem request_trace_factor (w : World) (f : String)
    (data : List (String × PVal)) (s : Sys) :
    ∃ t, (request w f data s).2.trace = (authRequest w f data s).2.trace ++ t := by
  simp only [request]
  rcases hA : authRequest w f data s with ⟨r1, s1⟩
  cases r1 with
  | ok v => dsimp only; exact ⟨[], by simp⟩
  | error e =>
    cases e with
    | e407 b =>
      dsimp only
      obtain ⟨t, ht⟩ := retryLoop_trace_mono w f data (.e407 b) s1.st.max_retry 1 s1
      exact ⟨t, ht⟩
    | transport a => dsimp only; exact ⟨[], by simp⟩
    | generic b => dsimp only; exact ⟨[], by simp⟩
    | e305 b =>
      dsimp only
      obtain ⟨t, ht⟩ := sessionRetry_trace_mono w f data s1
      exact ⟨t, ht⟩
    | e306 b =>
      dsimp only
      obtain ⟨t, ht⟩ := sessionRetry_trace_mono w f data s1
      exact ⟨t, ht⟩
    | e307 b =>
      dsimp only
      obtain ⟨t, ht⟩ := sessionRetry_trace_mono w f data s1
      exact ⟨t, ht⟩

theorem request_trace_expired (w : World) (f : String)
    (data : List (String × PVal)) (s : Sys)
    (h : s.st.token_expiration_time ≤ w.clock s.ci) :
    ∃ t, (request w f data s).2.trace = s.trace ++ Event.login :: t := by
  obtain ⟨t1, h1⟩ := authRequest_trace_expired w f data s h
  obtain ⟨t2, h2⟩ := request_trace_factor w f data s
  refine ⟨t1 ++ t2, ?_⟩
  rw [h2, h1, List.append_assoc]
  rfl

theorem request_trace_fresh (w : World) (f : String)
    (data : List (String × PVal)) (s : Sys)
    (h : w.clock s.ci < s.st.token_expiration_time) :
    ∃ t, (request w f data s).2.trace =
      s.trace ++ Event.post (s.st.base_url ++ "/" ++ f) s.st.headers data :: t := by
  obtain ⟨t2, h2⟩ := request_trace_factor w f data s
  rw [authRequest_fresh w f data s h] at h2
  dsimp only at h2
  refine ⟨t2, ?_⟩
  rw [h2, List.append_assoc]
  rfl

theorem getHeader_cons_skip (p : String × Option String)
    (l : List (String × Option String)) (k : String)
    (h : (p.1 == k) = false) : getHeader (p :: l) k = getHeader l k := by
  simp [getHeader, List.find?_cons, h]

theorem getHeader_updateHeader (hs : List (String × Option String))
    (k : String) (v : Option String) :
    getHeader (updateHeader hs k v) k = v := by
  induction hs with
  | nil => simp [updateHeader, getHeader]
  | cons p t ih =>
    by_cases hp : p.1 = k
    · have h1 : updateHeader (p :: t) k v =
          (k, v) :: t.map (fun q => if q.1 == k then (k, v) else q) := by
        simp [updateHeader, List.any_cons, hp]
      rw [h1]
      simp [getHeader, List.find?_cons]
    · have hbeq : (p.1 == k) = false := by simp [hp]
      have h1 : updateHeader (p :: t) k v = p :: updateHeader t k v := by
        simp only [updateHeader, List.any_cons, hbeq, Bool.false_or]
        by_cases ht : t.any (fun q => q.1 == k) <;> simp [ht, hbeq, hp]
      rw [h1, getHeader_cons_skip p (updateHeader t k v) k hbeq, ih]

theorem login_ok_mk (w : World) (st : ClientState) (ci ji ri : Nat)
    (tr : List Event)
    (h : validate_response (w.resp ri) = .ok ()) :
    login w ⟨st, ci, ji, ri, tr⟩ =
      (.ok (),
       ⟨{ st with
            cookies := [],
            headers := updateHeader st.headers "XSRF-TOKEN"
              (lookupCookie (w.resp ri).cookies "XSRF-TOKEN"),
            token_expiration_time := w.clock ci + 1200 },
        ci + 1, ji, ri + 1,
        tr ++ [Event.login,
               Event.post (st.base_url ++ "/login") st.headers
                 (loginBody st)]⟩) :=
  login_ok w ⟨st, ci, ji, ri, tr⟩ h

/-! ### Concrete worlds and states for witnesses and counterexamples -/

/-- A generic failure body with an unclassified fail code. -/
def BGEN : Body := { success := false, failCode := some 20004, raw := "generic" }

/-- A generic failure response. -/
def RGEN : HttpResponse := { status := 200, body := BGEN, cookies := [] }

/-- A session-invalid failure body with `failCode = 306`. -/
def B306 : Body := { success := false, failCode := some 306, raw := "session" }

/-- A session-invalid failure response with `failCode = 306`. -/
def R306 : HttpResponse := { status := 200, body := B306, cookies := [] }

/-- A session-invalid failure body with `failCode = 307`. -/
def B307 : Body := { success := false, failCode := some 307, raw := "session" }

/-- A session-invalid failure response with `failCode = 307`. -/
def R307 : HttpResponse := { status := 200, body := B307, cookies := [] }

/-- World in which every POST is answered with a throttling failure. -/
def WT : World where
  clock := fun _ => 0
  jitter := fun k => 4 + k % 7
  resp := fun _ => R407

/-- A client state holding an unexpired token and `max_retry = 2`. -/
def ST2R : Sys :=
  { st := { clientInit "user" "pass" 2 defaultBaseUrl with
              token_expiration_time := 1000 },
    ci := 0, ji := 0, ri := 0, trace := [] }

/-- A client state holding an unexpired token and the default
`max_retry = 6`. -/
def SFRESH : Sys :=
  { st := { clientInit "user" "pass" defaultMaxRetry defaultBaseUrl with
              token_expiration_time := 1000 },
    ci := 0, ji := 0, ri := 0, trace := [] }

/-- A client state holding an expired token (expiry 0, as constructed). -/
def SEXP : Sys := initialSys "user" "pass" defaultMaxRetry defaultBaseUrl

/-- World answering a 305 session-invalid failure, then a successful
login carrying an `XSRF-TOKEN` cookie, then successes. -/
def WS : World where
  clock := fun _ => 5
  jitter := fun _ => 3
  resp := fun k => match k with
    | 0 => R305
    | 1 => RLOGIN
    | _ => ROK

/-- World answering every POST with a success. -/
def WOK : World where
  clock := fun _ => 50
  jitter := fun _ => 3
  resp := fun _ => ROK

/-- World answering every POST with a successful login response. -/
def WL : World where
  clock := fun _ => 7
  jitter := fun _ => 3
  resp := fun _ => RLOGIN

/-- World answering every POST with a generic failure. -/
def WG : World where
  clock := fun _ => 50
  jitter := fun _ => 3
  resp := fun _ => RGEN

/-- World answering every POST with a throttling failure and jitter
draws `4, 5, 6, ...`. -/
def W8 : World where
  clock := fun _ => 0
  jitter := fun k => 4 + k
  resp := fun _ => R407

/-- World answering the first six POSTs with throttling failures and
the seventh with a success. -/
def W8c : World where
  clock := fun _ => 0
  jitter := fun k => 4 + k
  resp := fun k => if k < 6 then R407 else ROK

/-- Parameters of the `getKpiStationDay` scenario call. -/
def P8 : List (String × PVal) :=
  [("stationCodes", PVal.str "station"), ("collectTime", PVal.int 1704067200000)]

/-! ### The claims -/

/-- Claim C1: an operation dispatched through `_request` that keeps
raising the throttling error (`failCode` 407) is retried `max_retry`
times, each retry preceded by a sleep of `i * 20 + jitter` seconds with
the jitter drawn from `[3, 10]` (so delays are non-decreasing), for at
most `max_retry + 1` total attempts (POSTs); when every attempt is
throttled the originally raised error — built from the first response's
body — propagates, and no login is triggered. -/
theorem C1_throttle_retry_policy (w : World) (f : String)
    (data : List (String × PVal)) (s : Sys)
    (hj : ∀ k, 3 ≤ w.jitter k ∧ w.jitter k ≤ 10)
    (hr : ∀ k, throttled (w.resp k))
    (hc : ∀ k, w.clock k < s.st.token_expiration_time) :
    (request w f data s).1 = .error (.e407 (w.resp s.ri).body) ∧
    sleepsOf (request w f data s).2.trace =
      sleepsOf s.trace ++ delaysFrom w 1 s.ji s.st.max_retry ∧
    delaysFrom w 1 s.ji s.st.max_retry =
      (List.range s.st.max_retry).map
        (fun k => (1 + k) * 20 + w.jitter (s.ji + k)) ∧
    countPosts (request w f data s).2.trace =
      countPosts s.trace + (s.st.max_retry + 1) ∧
    countLogins (request w f data s).2.trace = countLogins s.trace ∧
    List.Chain' (fun a b => a ≤ b) (delaysFrom w 1 s.ji s.st.max_retry) := by
  rcases s with ⟨st, ci, ji, ri, tr⟩
  dsimp only at hc ⊢
  have hreq : request w f data ⟨st, ci, ji, ri, tr⟩ =
      (.error (.e407 (w.resp ri).body),
       ⟨st, ci + 1 + st.max_retry, ji + st.max_retry, ri + 1 + st.max_retry,
        (tr ++ [Event.post (st.base_url ++ "/" ++ f) st.headers data]) ++
          retryTrace w f data st 1 ji st.max_retry⟩) := by
    simp only [request]
    rw [authRequest_fresh_mk w f data st ci ji ri tr (hc ci)]
    rw [innerResult_throttled _ (hr ri)]
    dsimp only
    rw [retryLoop_throttled w f data (.e407 (w.resp ri).body) hr
      st.max_retry 1 st (ci + 1) ji (ri + 1)
      (tr ++ [Event.post (st.base_url ++ "/" ++ f) st.headers data]) hc]
  rw [hreq]
  dsimp only
  refine ⟨rfl, ?_, delaysFrom_eq_map w st.max_retry 1 ji, ?_, ?_,
    delaysFrom_chain w hj st.max_retry 1 ji⟩
  · rw [sleepsOf_append, sleepsOf_append,
      sleepsOf_retryTrace w f data st st.max_retry 1 ji]
    simp [sleepsOf]
  · rw [countPosts_append, countPosts_append,
      countPosts_retryTrace w f data st st.max_retry 1 ji]
    simp [countPosts]
    omega
  · rw [countLogins_append, countLogins_append,
      countLogins_retryTrace w f data st st.max_retry 1 ji]
    simp [countLogins]

/-- Witness for C1 at a concrete world (all responses throttled,
`max_retry = 2`, unexpired token). -/
theorem C1_throttle_retry_policy_witness :
    (request WT "getStationList" [] ST2R).1 =
      .error (.e407 (WT.resp ST2R.ri).body) ∧
    sleepsOf (request WT "getStationList" [] ST2R).2.trace =
      sleepsOf ST2R.trace ++ delaysFrom WT 1 ST2R.ji ST2R.st.max_retry ∧
    delaysFrom WT 1 ST2R.ji ST2R.st.max_retry =
      (List.range ST2R.st.max_retry).map
        (fun k => (1 + k) * 20 + WT.jitter (ST2R.ji + k)) ∧
    countPosts (request WT "getStationList" [] ST2R).2.trace =
      countPosts ST2R.trace + (ST2R.st.max_retry + 1) ∧
    countLogins (request WT "getStationList" [] ST2R).2.trace =
      countLogins ST2R.trace ∧
    List.Chain' (fun a b => a ≤ b) (delaysFrom WT 1 ST2R.ji ST2R.st.max_retry) :=
  C1_throttle_retry_policy WT "getStationList" [] ST2R
    (fun k => ⟨by show 3 ≤ 4 + k % 7; omega, by show 4 + k % 7 ≤ 10; omega⟩)
    (fun k => ⟨by show (200 : Nat) < 400; decide, rfl, rfl⟩)
    (fun k => by show (0 : Nat) < 1000; decide)

/-- Claim C3: the spec says fail codes 305, 306 and 307 raise three
distinct session-invalid exception types (`HTTPError305`, `HTTPError306`,
`HTTPError307`).  The code's `_validate_response` instead raises
`HTTPError306` for all three codes (its 305 and 307 branches both end in
`raise HTTPError306(body)`), so two distinct failure codes map to the
same concrete exception type; this theorem evaluates the embedded
validator at those failing inputs. -/
theorem C3_failcode_classification :
    validate_response R305 = .error (.e306 B305) ∧
    validate_response R306 = .error (.e306 B306) ∧
    validate_response R307 = .error (.e306 B307) ∧
    validate_response R407 = .error (.e407 B407) ∧
    validate_response RGEN = .error (.generic BGEN) :=
  ⟨rfl, rfl, rfl, rfl, rfl⟩

/-- Claim C4: every dispatch through `_request` re-evaluates the stored
expiry timestamp against the current clock: if the expiry is at or
before now, `login()` is invoked before the operation's POST (the first
recorded event is the login); if the expiry is strictly in the future,
the dispatch starts directly with the operation's POST and no login
precedes it. -/
theorem C4_expiry_check (w : World) (f : String)
    (data : List (String × PVal)) (s : Sys) :
    (s.st.token_expiration_time ≤ w.clock s.ci →
      ∃ t, (request w f data s).2.trace = s.trace ++ Event.login :: t) ∧
    (w.clock s.ci < s.st.token_expiration_time →
      ∃ t, (request w f data s).2.trace =
        s.trace ++
          Event.post (s.st.base_url ++ "/" ++ f) s.st.headers data :: t) :=
  ⟨request_trace_expired w f data s, request_trace_fresh w f data s⟩

/-- Witness for C4: one concrete expired dispatch (login first) and one
concrete fresh dispatch (POST first, no login). -/
theorem C4_expiry_check_witness :
    (SEXP.st.token_expiration_time ≤ WOK.clock SEXP.ci ∧
      ∃ t, (request WOK "getStationList" [] SEXP).2.trace =
        SEXP.trace ++ Event.login :: t) ∧
    (WOK.clock SFRESH.ci < SFRESH.st.token_expiration_time ∧
      ∃ t, (request WOK "getStationList" [] SFRESH).2.trace =
        SFRESH.trace ++
          Event.post (SFRESH.st.base_url ++ "/" ++ "getStationList")
            SFRESH.st.headers [] :: t) :=
  ⟨⟨by decide,
    (C4_expiry_check WOK "getStationList" [] SEXP).1 (by decide)⟩,
   ⟨by decide,
    (C4_expiry_check WOK "getStationList" [] SFRESH).2 (by decide)⟩⟩

/-- Claim C9: `get_station_kpi_day` serializes its date argument into
the parameter mapping as whole epoch seconds times 1000 under the
`collectTime` key, and dispatches the POST with exactly that mapping;
in particular whole-second epoch value 1704067200 (2024-01-01T00:00:00Z)
is serialized as the integer 1704067200000. -/
theorem C9_date_millis (w : World) (s : Sys) (station : String)
    (secs : Int)
    (hfresh : w.clock s.ci < s.st.token_expiration_time) :
    (∃ t, (get_station_kpi_day w s station secs).2.trace =
      s.trace ++
        Event.post (s.st.base_url ++ "/" ++ "getKpiStationDay") s.st.headers
          [("stationCodes", PVal.str station),
           ("collectTime", PVal.int (secs * 1000))] :: t) ∧
    (∃ t, (get_station_kpi_day w s station 1704067200).2.trace =
      s.trace ++
        Event.post (s.st.base_url ++ "/" ++ "getKpiStationDay") s.st.headers
          [("stationCodes", PVal.str station),
           ("collectTime", PVal.int 1704067200000)] :: t) := by
  constructor
  · exact request_trace_fresh w "getKpiStationDay"
      [("stationCodes", PVal.str station),
       ("collectTime", PVal.int (secs * 1000))] s hfresh
  · exact request_trace_fresh w "getKpiStationDay"
      [("stationCodes", PVal.str station),
       ("collectTime", PVal.int ((1704067200 : Int) * 1000))] s hfresh

/-- Witness for C9 at a concrete world and state. -/
theorem C9_date_millis_witness :
    (∃ t, (get_station_kpi_day WOK SFRESH "plant1" 42).2.trace =
      SFRESH.trace ++
        Event.post (SFRESH.st.base_url ++ "/" ++ "getKpiStationDay")
          SFRESH.st.headers
          [("stationCodes", PVal.str "plant1"),
           ("collectTime", PVal.int (42 * 1000))] :: t) ∧
    (∃ t, (get_station_kpi_day WOK SFRESH "plant1" 1704067200).2.trace =
      SFRESH.trace ++
        Event.post (SFRESH.st.base_url ++ "/" ++ "getKpiStationDay")
          SFRESH.st.headers
          [("stationCodes", PVal.str "plant1"),
           ("collectTime", PVal.int 1704067200000)] :: t) :=
  C9_date_millis WOK SFRESH "plant1" 42 (by decide)

/-- Claim C10: a freshly constructed client stores expiry timestamp 0,
which (timestamps being naturals) is at or before any current time, so
the first dispatched operation always begins with a `login()` before any
POST. -/
theorem C10_fresh_client_first_login (u sc : String) (mr : Nat)
    (burl : String) (w : World) (f : String) (d : List (String × PVal)) :
    (clientInit u sc mr burl).token_expiration_time = 0 ∧
    (∀ now : Nat, (clientInit u sc mr burl).token_expiration_time ≤ now) ∧
    (∃ t, (request w f d (initialSys u sc mr burl)).2.trace =
      Event.login :: t) := by
  refine ⟨rfl, fun now => Nat.zero_le now, ?_⟩
  obtain ⟨t, ht⟩ := request_trace_expired w f d (initialSys u sc mr burl)
    (Nat.zero_le _)
  exact ⟨t, by simpa using ht⟩

/-- Counterexample to claim C8 as stated: with the default
`max_retry = 6`, six consecutive throttled envelopes do not exhaust the
retry budget — the dispatcher makes a seventh attempt, and if that one
succeeds the call returns the success after the six sleeps instead of
raising the throttling error. -/
theorem C8_six_throttles_not_exhausting :
    (request W8c "getKpiStationDay" P8 SFRESH).1 = .ok BOK ∧
    sleepsOf (request W8c "getKpiStationDay" P8 SFRESH).2.trace =
      [24, 45, 66, 87, 108, 129] ∧
    (¬ ∃ b, (request W8c "getKpiStationDay" P8 SFRESH).1 =
      .error (.e407 b)) := by
  refine ⟨rfl, rfl, ?_⟩
  rintro ⟨b, hb⟩
  rw [show (request W8c "getKpiStationDay" P8 SFRESH).1 = .ok BOK from rfl] at hb
  cases hb

/-- Claim C8 amended: with the default `max_retry = 6`, seven
consecutive throttled envelopes (the initial attempt plus all six
retries) exhaust the budget: the call raises the original throttling
error, having slept exactly 6 times with delays
`[1*20+j1, ..., 6*20+j6]` (here jitters 4..9, so
`[24, 45, 66, 87, 108, 129]`), with 7 POSTs and no login. -/
theorem C8_exhaustion_scenario :
    (request W8 "getKpiStationDay" P8 SFRESH).1 = .error (.e407 B407) ∧
    sleepsOf (request W8 "getKpiStationDay" P8 SFRESH).2.trace =
      [24, 45, 66, 87, 108, 129] ∧
    countPosts (request W8 "getKpiStationDay" P8 SFRESH).2.trace = 7 ∧
    countLogins (request W8 "getKpiStationDay" P8 SFRESH).2.trace = 0 :=
  ⟨rfl, rfl, rfl, rfl⟩

/-- Claim C6: a failure envelope whose `failCode` is none of 305, 306,
307, 407 — or which has no `failCode` — makes the dispatch raise the
generic error immediately, carrying the decoded response body, with no
retry (a single POST), no sleep and no login triggered by that
failure. -/
theorem C6_generic_immediate (w : World) (f : String)
    (data : List (String × PVal)) (s : Sys)
    (hfresh : w.clock s.ci < s.st.token_expiration_time)
    (h1 : (w.resp s.ri).status < 400)
    (h2 : (w.resp s.ri).body.success = false)
    (h3 : ∀ c : Int, (w.resp s.ri).body.failCode = some c →
      c ≠ 407 ∧ c ≠ 305 ∧ c ≠ 306 ∧ c ≠ 307) :
    (request w f data s).1 = .error (.generic (w.resp s.ri).body) ∧
    (request w f data s).2.trace = s.trace ++
      [Event.post (s.st.base_url ++ "/" ++ f) s.st.headers data] ∧
    countLogins (request w f data s).2.trace = countLogins s.trace ∧
    sleepsOf (request w f data s).2.trace = sleepsOf s.trace := by
  rcases s with ⟨st, ci, ji, ri, tr⟩
  dsimp only at hfresh h1 h2 h3 ⊢
  have hin : innerResult (w.resp ri) =
      .error (.generic (w.resp ri).body) := by
    simp [innerResult, validate_generic (w.resp ri) h1 h2 h3]
  simp only [request]
  rw [authRequest_fresh_mk w f data st ci ji ri tr hfresh, hin]
  dsimp only
  refine ⟨rfl, rfl, ?_, ?_⟩
  · rw [countLogins_append]; simp [countLogins]
  · rw [sleepsOf_append]; simp [sleepsOf]

/-- Witness for C6 at a concrete world answering `failCode = 20004`. -/
theorem C6_generic_immediate_witness :
    (request WG "getStationList" [] SFRESH).1 =
      .error (.generic (WG.resp SFRESH.ri).body) ∧
    (request WG "getStationList" [] SFRESH).2.trace = SFRESH.trace ++
      [Event.post (SFRESH.st.base_url ++ "/" ++ "getStationList")
        SFRESH.st.headers []] ∧
    countLogins (request WG "getStationList" [] SFRESH).2.trace =
      countLogins SFRESH.trace ∧
    sleepsOf (request WG "getStationList" [] SFRESH).2.trace =
      sleepsOf SFRESH.trace :=
  C6_generic_immediate WG "getStationList" [] SFRESH (by decide) (by decide)
    rfl
    (by
      intro c hc
      rw [show (WG.resp SFRESH.ri).body.failCode = some (20004 : Int)
        from rfl] at hc
      rw [Option.some.injEq] at hc
      subst hc
      exact ⟨by decide, by decide, by decide, by decide⟩)

/-- Claim C7: with an unexpired token, a `success: true` envelope makes
the dispatch return the decoded body unmodified, with a single POST, no
login, no sleep, and the client state (headers, cookies, expiry
timestamp) unchanged. -/
theorem C7_success_frame (w : World) (f : String)
    (data : List (String × PVal)) (s : Sys)
    (hfresh : w.clock s.ci < s.st.token_expiration_time)
    (h1 : (w.resp s.ri).status < 400)
    (h2 : (w.resp s.ri).body.success = true) :
    (request w f data s).1 = .ok (w.resp s.ri).body ∧
    (request w f data s).2.st = s.st ∧
    (request w f data s).2.trace = s.trace ++
      [Event.post (s.st.base_url ++ "/" ++ f) s.st.headers data] ∧
    countLogins (request w f data s).2.trace = countLogins s.trace ∧
    sleepsOf (request w f data s).2.trace = sleepsOf s.trace := by
  rcases s with ⟨st, ci, ji, ri, tr⟩
  dsimp only at hfresh h1 h2 ⊢
  simp only [request]
  rw [authRequest_fresh_mk w f data st ci ji ri tr hfresh,
    innerResult_ok (w.resp ri) h1 h2]
  dsimp only
  refine ⟨rfl, rfl, rfl, ?_, ?_⟩
  · rw [countLogins_append]; simp [countLogins]
  · rw [sleepsOf_append]; simp [sleepsOf]

/-- Witness for C7 at a concrete world answering a success. -/
theorem C7_success_frame_witness :
    (request WOK "getStationList" [] SFRESH).1 =
      .ok (WOK.resp SFRESH.ri).body ∧
    (request WOK "getStationList" [] SFRESH).2.st = SFRESH.st ∧
    (request WOK "getStationList" [] SFRESH).2.trace = SFRESH.trace ++
      [Event.post (SFRESH.st.base_url ++ "/" ++ "getStationList")
        SFRESH.st.headers []] ∧
    countLogins (request WOK "getStationList" [] SFRESH).2.trace =
      countLogins SFRESH.trace ∧
    sleepsOf (request WOK "getStationList" [] SFRESH).2.trace =
      sleepsOf SFRESH.trace :=
  C7_success_frame WOK "getStationList" [] SFRESH (by decide) (by decide) rfl

/-- Claim C5: `login()` clears the stored session cookies; on a valid
response envelope it returns success, stores the response's
`XSRF-TOKEN` cookie value as the `XSRF-TOKEN` session header, sets the
expiry timestamp to now + 1200 seconds, and its trace is the login
invocation followed by the POST of `{userName, systemCode}` to
`{base_url}/login`; on a failure envelope or transport error that error
propagates and neither the headers nor the expiry timestamp are updated;
and after a login whose response carried `XSRF-TOKEN = tok`, the stored
header is `tok` and a subsequent fresh dispatch POSTs with those stored
headers. -/
theorem C5_login_behaviour (w : World) (s : Sys) :
    ((login w s).2.st.cookies = []) ∧
    (validate_response (w.resp s.ri) = .ok () →
      (login w s).1 = .ok () ∧
      (login w s).2.st.headers =
        updateHeader s.st.headers "XSRF-TOKEN"
          (lookupCookie (w.resp s.ri).cookies "XSRF-TOKEN") ∧
      (login w s).2.st.token_expiration_time = w.clock s.ci + 1200 ∧
      (login w s).2.trace = s.trace ++
        [Event.login,
         Event.post (s.st.base_url ++ "/login") s.st.headers
           (loginBody s.st)]) ∧
    (∀ e, validate_response (w.resp s.ri) = .error e →
      (login w s).1 = .error e ∧
      (login w s).2.st.headers = s.st.headers ∧
      (login w s).2.st.token_expiration_time =
        s.st.token_expiration_time) ∧
    (∀ tok, validate_response (w.resp s.ri) = .ok () →
      lookupCookie (w.resp s.ri).cookies "XSRF-TOKEN" = some tok →
      getHeader (login w s).2.st.headers "XSRF-TOKEN" = some tok ∧
      ∀ f d, w.clock (s.ci + 1) < w.clock s.ci + 1200 →
        ∃ t, (request w f d (login w s).2).2.trace =
          (login w s).2.trace ++
            Event.post ((login w s).2.st.base_url ++ "/" ++ f)
              (login w s).2.st.headers d :: t) := by
  refine ⟨?_, ?_, ?_, ?_⟩
  · cases h : validate_response (w.resp s.ri) with
    | error e => rw [login_err w s e h]
    | ok u => cases u; rw [login_ok w s h]
  · intro h
    rw [login_ok w s h]
    exact ⟨rfl, rfl, rfl, rfl⟩
  · intro e h
    rw [login_err w s e h]
    exact ⟨rfl, rfl, rfl⟩
  · intro tok hok hcook
    have hL := login_ok w s hok
    constructor
    · rw [hL]
      dsimp only
      rw [getHeader_updateHeader, hcook]
    · intro f d hfresh
      apply request_trace_fresh
      rw [hL]
      dsimp only
      exact hfresh

/-- Witness for C5 at a concrete world whose login response carries
`XSRF-TOKEN = abc123`. -/
theorem C5_login_behaviour_witness :
    ((login WL SEXP).2.st.cookies = []) ∧
    ((login WL SEXP).1 = .ok () ∧
      (login WL SEXP).2.st.headers =
        updateHeader SEXP.st.headers "XSRF-TOKEN"
          (lookupCookie (WL.resp SEXP.ri).cookies "XSRF-TOKEN") ∧
      (login WL SEXP).2.st.token_expiration_time =
        WL.clock SEXP.ci + 1200 ∧
      (login WL SEXP).2.trace = SEXP.trace ++
        [Event.login,
         Event.post (SEXP.st.base_url ++ "/login") SEXP.st.headers
           (loginBody SEXP.st)]) ∧
    (getHeader (login WL SEXP).2.st.headers "XSRF-TOKEN" =
      some "abc123") ∧
    (∃ t, (request WL "getStationList" [] (login WL SEXP).2).2.trace =
      (login WL SEXP).2.trace ++
        Event.post ((login WL SEXP).2.st.base_url ++ "/" ++ "getStationList")
          (login WL SEXP).2.st.headers [] :: t) :=
  ⟨(C5_login_behaviour WL SEXP).1,
   (C5_login_behaviour WL SEXP).2.1 rfl,
   ((C5_login_behaviour WL SEXP).2.2.2 "abc123" rfl rfl).1,
   ((C5_login_behaviour WL SEXP).2.2.2 "abc123" rfl rfl).2
     "getStationList" [] (by decide)⟩

/-- Claim C2: if a dispatch's first attempt fails with a session-invalid
code (any of 305, 306, 307 — all handled identically), the dispatcher
invokes `login()` exactly once and retries the original call exactly
once; the retried call's outcome — whatever it is — propagates
unmodified, with no further retry or session handling around it.  The
trace is exactly: original POST, login, login POST, retried POST. -/
theorem C2_session_invalid_single_retry (w : World) (f : String)
    (data : List (String × PVal)) (s : Sys) (c : Int)
    (hcode : c = 305 ∨ c = 306 ∨ c = 307)
    (hfresh : w.clock s.ci < s.st.token_expiration_time)
    (h0s : (w.resp s.ri).status < 400)
    (h0u : (w.resp s.ri).body.success = false)
    (h0c : (w.resp s.ri).body.failCode = some c)
    (h1s : (w.resp (s.ri + 1)).status < 400)
    (h1u : (w.resp (s.ri + 1)).body.success = true)
    (hfresh2 : w.clock (s.ci + 2) < w.clock (s.ci + 1) + 1200) :
    (request w f data s).1 = innerResult (w.resp (s.ri + 2)) ∧
    (request w f data s).2.trace = s.trace ++
      [Event.post (s.st.base_url ++ "/" ++ f) s.st.headers data,
       Event.login,
       Event.post (s.st.base_url ++ "/login") s.st.headers (loginBody s.st),
       Event.post (s.st.base_url ++ "/" ++ f)
         (updateHeader s.st.headers "XSRF-TOKEN"
           (lookupCookie (w.resp (s.ri + 1)).cookies "XSRF-TOKEN")) data] ∧
    countLogins (request w f data s).2.trace = countLogins s.trace + 1 := by
  rcases s with ⟨st, ci, ji, ri, tr⟩
  dsimp only at hfresh h0s h0u h0c h1s h1u hfresh2 ⊢
  have hin : innerResult (w.resp ri) = .error (.e306 (w.resp ri).body) := by
    simp [innerResult,
      validate_sessionInvalid (w.resp ri) c hcode h0s h0u h0c]
  simp only [request]
  rw [authRequest_fresh_mk w f data st ci ji ri tr hfresh, hin]
  dsimp only
  simp only [sessionRetry]
  rw [login_ok_mk w st (ci + 1) ji (ri + 1)
    (tr ++ [Event.post (st.base_url ++ "/" ++ f) st.headers data])
    (validate_ok (w.resp (ri + 1)) h1s h1u)]
  dsimp only
  rw [authRequest_fresh_mk w f data
    { st with
        cookies := [],
        headers := updateHeader st.headers "XSRF-TOKEN"
          (lookupCookie (w.resp (ri + 1)).cookies "XSRF-TOKEN"),
        token_expiration_time := w.clock (ci + 1) + 1200 }
    (ci + 1 + 1) ji (ri + 1 + 1)
    (tr ++ [Event.post (st.base_url ++ "/" ++ f) st.headers data] ++
      [Event.login,
       Event.post (st.base_url ++ "/login") st.headers (loginBody st)])
    hfresh2]
  dsimp only
  refine ⟨rfl, ?_, ?_⟩
  · simp [List.append_assoc]
  · simp [countLogins_append, countLogins]

/-- Witness for C2 at a concrete world answering 305, then a successful
login, then a success for the retried call. -/
theorem C2_session_invalid_single_retry_witness :
    (request WS "getStationList" [] SFRESH).1 =
      innerResult (WS.resp (SFRESH.ri + 2)) ∧
    (request WS "getStationList" [] SFRESH).2.trace = SFRESH.trace ++
      [Event.post (SFRESH.st.base_url ++ "/" ++ "getStationList")
         SFRESH.st.headers [],
       Event.login,
       Event.post (SFRESH.st.base_url ++ "/login") SFRESH.st.headers
         (loginBody SFRESH.st),
       Event.post (SFRESH.st.base_url ++ "/" ++ "getStationList")
         (updateHeader SFRESH.st.headers "XSRF-TOKEN"
           (lookupCookie (WS.resp (SFRESH.ri + 1)).cookies "XSRF-TOKEN"))
         []] ∧
    countLogins (request WS "getStationList" [] SFRESH).2.trace =
      countLogins SFRESH.trace + 1 :=
  C2_session_invalid_single_retry WS "getStationList" [] SFRESH 305
    (Or.inl rfl) (by decide) (by decide) rfl rfl (by decide) rfl (by decide)

end FusionSolar

